import Mathlib

/-
Verification of the chunked pagination engine of the repcon repository
(src/file_splitting.rs and src/output_formatting.rs), as a shallow
embedding in Lean 4.

Modelling choices, stated once here:

* Rust `u64` quantities (byte sizes, counters, page numbers) are modelled
  as `Nat`.  No subtraction or wrap-around on these quantities occurs in
  the modelled code, so overflow behaviour is unreachable.
* Rust `String` is modelled as Lean `String`; `s.as_bytes().len()` is the
  UTF-8 byte size (`byteLen`), which is exactly what Rust computes, since
  Rust strings are UTF-8.
* A filesystem path is modelled by its list of normal components
  (`List String`); `Path::strip_prefix` is component-wise prefix removal,
  `Path::to_str` / rendering joins components with "/".  A `PathBuf`
  received from the caller is modelled by a `TargetFile` carrying the
  rendered string of the path plus a flag telling whether `to_str()`
  succeeds (i.e. whether the OS path is valid UTF-8), and the result of
  attempting to open and read the file.
* Output file-system writes are modelled as always succeeding: a
  `Container` accumulates the exact byte string written to it.  The
  claims under study all concern the engine's own arithmetic and control
  flow, not OS-level write failures.
* `eprintln!` logging is invisible to the returned value and is not
  modelled.
* In the source, the first call of `next_output_file` inside the file
  loop passes `&mut output_file_path.clone()`, so the caller's
  `output_file_path` variable is not updated there; this is observably
  irrelevant, because the generated-files list is pushed inside
  `next_output_file` from the freshly created path, and the `File`
  handle itself is genuinely replaced.  The model therefore tracks only
  the container list, the counter and the running size.
-/

namespace Repcon

/-- Byte length of a string in its UTF-8 encoding: the embedding of
Rust's `s.as_bytes().len()` applied to a `String`. -/
def byteLen (s : String) : Nat := s.utf8ByteSize

/-- Embedding of the `PageFormat` struct of src/output_formatting.rs.
The field name `page_nubmer` is the source's own spelling. -/
structure PageFormat where
  header : String
  footer : String
  header_size : Nat
  footer_size : Nat
  file_path : String
  page_nubmer : Nat
deriving DecidableEq, Repr

/-- Embedding of `PageFormat::create_page_header`: the Rust code is
`format!("# repcon_file_name: {}\n# repcon_page_number: {}\n// START OF CODE BLOCK: {}\n", file_path, page_number, file_path)`;
the literal is split here at line boundaries, character for character. -/
def PageFormat.create_page_header (file_path : String) (page_number : Nat) : String :=
  "# repcon_file_name: " ++ file_path ++ "\n" ++
  "# repcon_page_number: " ++ toString page_number ++ "\n" ++
  "// START OF CODE BLOCK: " ++ file_path ++ "\n"

/-- Embedding of `PageFormat::create_page_footer`: the Rust code is
`format!("// END OF CODE BLOCK: {}\n\n", file_path)`; note the two
newline characters at the end of the literal. -/
def PageFormat.create_page_footer (file_path : String) : String :=
  "// END OF CODE BLOCK: " ++ file_path ++ "\n" ++ "\n"

/-- Embedding of `PageFormat::get_page_header_size`. -/
def PageFormat.get_page_header_size (pf : PageFormat) : Nat := byteLen pf.header

/-- Embedding of `PageFormat::get_page_footer_size`. -/
def PageFormat.get_page_footer_size (pf : PageFormat) : Nat := byteLen pf.footer

/-- Embedding of `PageFormat::increment_page_number` as a state-to-state
function (the Rust method mutates `self` in place). -/
def PageFormat.increment_page_number (pf : PageFormat) : PageFormat :=
  let page_nubmer := pf.page_nubmer + 1
  let header := PageFormat.create_page_header pf.file_path page_nubmer
  let footer := PageFormat.create_page_footer pf.file_path
  { pf with
    page_nubmer := page_nubmer
    header := header
    footer := footer
    header_size := byteLen header
    footer_size := byteLen footer }

/-- Splits a character list at '/' separators, accumulating the current
component in reverse.  Helper for `pathComponents`. -/
def splitComponentsAux : List Char → List Char → List String
  | [], acc => [String.mk acc.reverse]
  | c :: cs, acc =>
    if c = '/' then String.mk acc.reverse :: splitComponentsAux cs []
    else splitComponentsAux cs (c :: acc)

/-- The component list of a path string: the embedding of
`Path::new(s).components()` for paths made of normal components.
Empty components (from leading, trailing or doubled separators) are
dropped, as Rust's component iterator does. -/
def pathComponents (s : String) : List String :=
  (splitComponentsAux s.data []).filter (fun c => c ≠ "")

/-- Renders a component list back to a path string, the embedding of
`PathBuf::to_str` for paths of normal components. -/
def renderPath (cs : List String) : String :=
  String.intercalate ("/") cs

/-- Embedding of `PageFormat::to_relative_path` on component lists:
`file_path.strip_prefix(root).unwrap_or(file_path).to_path_buf()`, where
`Path::strip_prefix` succeeds exactly when `root`'s components are a
prefix of `file_path`'s components and then drops them. -/
def PageFormat.to_relative_path (root file_path : List String) : List String :=
  if root.isPrefixOf file_path then file_path.drop root.length else file_path

/-- Embedding of `PageFormat::new`.  The `root` argument is a component
list (the model of the `Option<&Path>` parameter).  The `to_str().unwrap()`
of the source cannot panic, because the path being rendered consists of
components of a valid UTF-8 string; the model reflects this by being a
total function. -/
def PageFormat.new (file_path : String) (root : Option (List String)) : PageFormat :=
  let file_path :=
    match root with
    | some root => renderPath (PageFormat.to_relative_path root (pathComponents file_path))
    | none => file_path
  let header := PageFormat.create_page_header file_path 1
  let footer := PageFormat.create_page_footer file_path
  { header := header
    footer := footer
    header_size := byteLen header
    footer_size := byteLen footer
    file_path := file_path
    page_nubmer := 1 }

/-- One input file of `split_files_into_chunks`: the rendered path
string, whether `to_str()` succeeds on the `PathBuf`, and the result of
opening it (`none`: `File::open` fails) as the list of line-read results
(`none`: the line is not valid text and `reader.lines()` yields `Err`).
Lines carry no terminator, as with Rust's `BufRead::lines`. -/
structure TargetFile where
  path : String
  utf8Valid : Bool
  content : Option (List (Option String))
deriving DecidableEq, Repr

/-- One output file: its path (component list) and the bytes written to
it so far. -/
structure Container where
  path : List String
  content : String
deriving DecidableEq, Repr

/-- The mutable state of `split_files_into_chunks`: the containers
created so far (the last one is the currently open output file; its
path list is also the `generated_output_files` vector, which is pushed
exactly when a container is created), the `output_file_counter`, and
`current_output_file_size`. -/
structure SplitState where
  containers : List Container
  counter : Nat
  current_size : Nat
deriving DecidableEq, Repr

/-- The error value of the engine; both fatal error sites of the source
construct `io::Error::new(io::ErrorKind::InvalidData, msg)`. -/
inductive IoError where
  | invalidData (msg : String)
deriving DecidableEq, Repr

/-- The name given to output file number `file_counter`:
`format!("{}_{}.txt", output_name, file_counter)`. -/
def outFileName (output_name : String) (file_counter : Nat) : String :=
  output_name ++ "_" ++ toString file_counter ++ ".txt"

/-- Embedding of `create_new_output_file`: `File::create` on
`output_directory.join(format!("{}_{}.txt", output_name, file_counter))`,
yielding an empty container at that path. -/
def create_new_output_file (output_directory : List String) (file_counter : Nat)
    (output_name : String) : Container :=
  { path := output_directory ++ [outFileName output_name file_counter], content := "" }

/-- Appends bytes to the last container of the list (the currently open
output file). -/
def appendLast : List Container → String → List Container
  | [], _ => []
  | [c], s => [{ c with content := c.content ++ s }]
  | c :: cs, s => c :: appendLast cs s

/-- A `write!` to the currently open output file. -/
def writeCur (st : SplitState) (s : String) : SplitState :=
  { st with containers := appendLast st.containers s }

/-- A `current_output_file_size += n` step. -/
def addSize (st : SplitState) (n : Nat) : SplitState :=
  { st with current_size := st.current_size + n }

/-- Embedding of `check_max_output_file_size`. -/
def check_max_output_file_size (page_format : PageFormat) (max_output_file_size : Nat) :
    Except IoError Unit :=
  if page_format.get_page_header_size + page_format.get_page_footer_size >
      max_output_file_size then
    Except.error (IoError.invalidData
      ("Error: The maximum file size (" ++ toString max_output_file_size ++
        ") is too small to contain the page header and footer."))
  else
    Except.ok ()

/-- Embedding of `next_output_file`: increments the counter, resets the
running size, creates the next output file and pushes it onto the
generated list, making it the currently open container. -/
def next_output_file (output_directory : List String) (output_name : String)
    (st : SplitState) : SplitState :=
  let file_counter := st.counter + 1
  let c := create_new_output_file output_directory file_counter output_name
  { containers := st.containers ++ [c], counter := file_counter, current_size := 0 }

/-- The inner `for line_result in reader.lines()` loop of
`split_files_into_chunks`, one source file at a time.  A `none` entry is
an `Err` line read: the source breaks out of the loop.  On a rollover the
footer is written to the old container, a new container is opened, the
page number is incremented, the header/footer capacity is re-checked
(this can abort the run), and the new header is written; then — in all
cases — the line plus a newline is written and the size counter grows by
`line.as_bytes().len() + 1`. -/
def processLines (output_directory : List String) (output_name : String)
    (max_output_file_size : Nat) :
    List (Option String) → PageFormat → SplitState →
      Except IoError (PageFormat × SplitState)
  | [], page_format, st => Except.ok (page_format, st)
  | none :: _, page_format, st => Except.ok (page_format, st)
  | some line :: rest, page_format, st =>
    let line_size := byteLen line + 1
    if st.current_size + line_size + page_format.footer_size > max_output_file_size then
      let st1 := next_output_file output_directory output_name (writeCur st page_format.footer)
      let pf1 := page_format.increment_page_number
      match check_max_output_file_size pf1 max_output_file_size with
      | Except.error e => Except.error e
      | Except.ok _ =>
        let st2 := addSize (writeCur st1 pf1.header) pf1.header_size
        let st3 := addSize (writeCur st2 (line ++ "\n")) line_size
        processLines output_directory output_name max_output_file_size rest pf1 st3
    else
      let st3 := addSize (writeCur st (line ++ "\n")) line_size
      processLines output_directory output_name max_output_file_size rest page_format st3

/-- The body of the `for target_file_path in target_files` loop of
`split_files_into_chunks` for one target file: the UTF-8 validity check
on the path (fatal), the open attempt (skip the file on failure), the
page-format construction and capacity check (fatal), the proactive
rollover when header+footer does not fit the current container, the
header write, the line loop, and the final footer write.  Note that the
source does not add `footer_size` to `current_output_file_size` after
this last footer write. -/
def processOneFile (target_files_root_path : Option (List String))
    (output_directory : List String) (output_name : String)
    (max_output_file_size : Nat) (tf : TargetFile) (st : SplitState) :
    Except IoError SplitState :=
  if tf.utf8Valid = false then
    Except.error (IoError.invalidData ("Target File path contains invalid UTF-8 characters"))
  else
    match tf.content with
    | none => Except.ok st
    | some lines =>
      let page_format := PageFormat.new tf.path target_files_root_path
      match check_max_output_file_size page_format max_output_file_size with
      | Except.error e => Except.error e
      | Except.ok _ =>
        let st1 :=
          if st.current_size + page_format.header_size + page_format.footer_size >
              max_output_file_size then
            next_output_file output_directory output_name st
          else st
        let st2 := addSize (writeCur st1 page_format.header) page_format.header_size
        match processLines output_directory output_name max_output_file_size
            lines page_format st2 with
        | Except.error e => Except.error e
        | Except.ok (pf, st3) => Except.ok (writeCur st3 pf.footer)

/-- The file loop of `split_files_into_chunks`: processes the target
files in order, propagating fatal errors. -/
def processFiles (target_files_root_path : Option (List String))
    (output_directory : List String) (output_name : String)
    (max_output_file_size : Nat) :
    List TargetFile → SplitState → Except IoError SplitState
  | [], st => Except.ok st
  | tf :: rest, st =>
    match processOneFile target_files_root_path output_directory output_name
        max_output_file_size tf st with
    | Except.error e => Except.error e
    | Except.ok st1 =>
      processFiles target_files_root_path output_directory output_name
        max_output_file_size rest st1

/-- The state after the initialisation of `split_files_into_chunks`:
output file number 1 is created and pushed, the counter is 1 and the
running size is 0. -/
def initState (output_directory : List String) (output_name : String) : SplitState :=
  { containers := [create_new_output_file output_directory 1 output_name]
    counter := 1
    current_size := 0 }

/-- `split_files_into_chunks`, returning the full final state (container
paths and contents) for reasoning about written bytes. -/
def split_run (target_files : List TargetFile)
    (target_files_root_path : Option (List String))
    (output_directory : List String) (max_output_file_size : Nat)
    (output_name : String) : Except IoError SplitState :=
  processFiles target_files_root_path output_directory output_name
    max_output_file_size target_files (initState output_directory output_name)

/-- Embedding of `split_files_into_chunks`: the returned value is the
ordered list of generated output-file paths (`generated_output_files`),
which coincides with the paths of the containers created during the
run. -/
def split_files_into_chunks (target_files : List TargetFile)
    (target_files_root_path : Option (List String))
    (output_directory : List String) (max_output_file_size : Nat)
    (output_name : String) : Except IoError (List (List String)) :=
  (split_run target_files target_files_root_path output_directory
      max_output_file_size output_name).map
    (fun st => st.containers.map Container.path)

end Repcon

namespace Repcon

/-! Theorems about the embedded program. -/

/-- Claim C7 counterexample: the footer rendered for identifier "a" is
not the single line "// END OF CODE BLOCK: a" followed by its line
terminator and nothing else — the source appends a second newline. -/
theorem c7_footer_format_counterexample :
    PageFormat.create_page_footer ("a") ≠ "// END OF CODE BLOCK: a" ++ "\n" := by
  decide

/-- Claim C7 (amended): for every file identifier, the rendered header is
exactly the three lines "# repcon_file_name: <identifier>",
"# repcon_page_number: <N>", "// START OF CODE BLOCK: <identifier>" with
their line terminators, and the rendered footer is exactly the line
"// END OF CODE BLOCK: <identifier>" followed by its line terminator and
one additional newline (an empty line). -/
theorem c7_frame_formats (fp : String) (n : Nat) :
    PageFormat.create_page_header fp n =
      "# repcon_file_name: " ++ fp ++ "\n" ++
      "# repcon_page_number: " ++ toString n ++ "\n" ++
      "// START OF CODE BLOCK: " ++ fp ++ "\n" ∧
    PageFormat.create_page_footer fp =
      "// END OF CODE BLOCK: " ++ fp ++ "\n" ++ "\n" :=
  ⟨rfl, rfl⟩

/-- Claim C8: for every `PageFormat` whose footer is the rendered footer
of its file path (as holds for every state produced by `new` and
`increment_page_number`), incrementing the page number yields page
number n+1, an unchanged footer, the header rendered for the same file
path and page n+1, and sizes equal to the byte lengths of the new header
and footer. -/
theorem c8_increment_page_number (pf : PageFormat)
    (h : pf.footer = PageFormat.create_page_footer pf.file_path) :
    (pf.increment_page_number).page_nubmer = pf.page_nubmer + 1 ∧
    (pf.increment_page_number).footer = pf.footer ∧
    (pf.increment_page_number).header =
      PageFormat.create_page_header pf.file_path (pf.page_nubmer + 1) ∧
    (pf.increment_page_number).header_size = byteLen (pf.increment_page_number).header ∧
    (pf.increment_page_number).footer_size = byteLen (pf.increment_page_number).footer := by
  refine ⟨rfl, ?_, rfl, rfl, rfl⟩
  simp [PageFormat.increment_page_number, h]

/-- Witness for C8 at the concrete state built by `PageFormat.new` for
file "a" with no root. -/
theorem c8_increment_page_number_witness :
    ((PageFormat.new ("a") none).increment_page_number).page_nubmer =
      (PageFormat.new ("a") none).page_nubmer + 1 ∧
    ((PageFormat.new ("a") none).increment_page_number).footer =
      (PageFormat.new ("a") none).footer ∧
    ((PageFormat.new ("a") none).increment_page_number).header =
      PageFormat.create_page_header (PageFormat.new ("a") none).file_path
        ((PageFormat.new ("a") none).page_nubmer + 1) ∧
    ((PageFormat.new ("a") none).increment_page_number).header_size =
      byteLen ((PageFormat.new ("a") none).increment_page_number).header ∧
    ((PageFormat.new ("a") none).increment_page_number).footer_size =
      byteLen ((PageFormat.new ("a") none).increment_page_number).footer :=
  c8_increment_page_number (PageFormat.new ("a") none) (by rfl)

/-- Claim C10: `to_relative_path` drops the root components exactly when
they are a prefix of the file path's components and returns the file
path unchanged otherwise; consequently `PageFormat.new` on a file
outside the declared root succeeds and renders the identifier as the
original path. -/
theorem c10_to_relative_path_spec (root file_path rootC : List String) (fp : String)
    (h : ¬ rootC <+: pathComponents fp) :
    PageFormat.to_relative_path root file_path =
      (if root <+: file_path then file_path.drop root.length else file_path) ∧
    (PageFormat.new fp (some rootC)).file_path = renderPath (pathComponents fp) := by
  constructor
  · by_cases hp : root <+: file_path
    · simp [PageFormat.to_relative_path, List.isPrefixOf_iff_prefix, hp]
    · simp [PageFormat.to_relative_path, List.isPrefixOf_iff_prefix, hp]
  · simp [PageFormat.new, PageFormat.to_relative_path, List.isPrefixOf_iff_prefix, h]

/-- Witness for C10: root ["a"] is a prefix of ["a", "b"], and file
"x/b" lies outside root ["z"]. -/
theorem c10_to_relative_path_spec_witness :
    PageFormat.to_relative_path ["a"] ["a", "b"] =
      (if (["a"] : List String) <+: ["a", "b"] then
        (["a", "b"] : List String).drop (["a"] : List String).length
      else ["a", "b"]) ∧
    (PageFormat.new ("x/b") (some ["z"])).file_path = renderPath (pathComponents ("x/b")) :=
  c10_to_relative_path_spec ["a"] ["a", "b"] ["z"] ("x/b") (by decide)

end Repcon

namespace Repcon

/-- Claim C6: a target file whose path is valid UTF-8 but which cannot be
opened is skipped — `processOneFile` returns the state unchanged (so no
header, body or footer bytes are written for it) — and the file loop
continues with the remaining files without an error. -/
theorem c6_unopenable_file_skipped (root : Option (List String))
    (output_directory : List String) (output_name : String)
    (max_output_file_size : Nat) (tf : TargetFile) (st : SplitState)
    (rest : List TargetFile)
    (h1 : tf.utf8Valid = true) (h2 : tf.content = none) :
    processOneFile root output_directory output_name max_output_file_size tf st =
      Except.ok st ∧
    processFiles root output_directory output_name max_output_file_size
        (tf :: rest) st =
      processFiles root output_directory output_name max_output_file_size rest st := by
  have hone : processOneFile root output_directory output_name
      max_output_file_size tf st = Except.ok st := by
    simp [processOneFile, h1, h2]
  exact ⟨hone, by simp [processFiles, hone]⟩

/-- Witness for C6: a single unopenable file is skipped and the run state
is untouched. -/
theorem c6_unopenable_file_skipped_witness :
    processOneFile none ["out"] ("output") 100 ⟨"a", true, none⟩
        (initState ["out"] ("output")) =
      Except.ok (initState ["out"] ("output")) ∧
    processFiles none ["out"] ("output") 100 [⟨"a", true, none⟩]
        (initState ["out"] ("output")) =
      processFiles none ["out"] ("output") 100 []
        (initState ["out"] ("output")) :=
  c6_unopenable_file_skipped none ["out"] ("output") 100 ⟨"a", true, none⟩
    (initState ["out"] ("output")) [] (by rfl) (by rfl)

/-- If some member of the file list always makes `processOneFile` fail,
then the whole file loop fails, whatever the starting state. -/
theorem processFiles_err_of_mem (root : Option (List String))
    (output_directory : List String) (output_name : String)
    (max_output_file_size : Nat) (tf : TargetFile)
    (herr : ∀ st1 : SplitState, ∃ e,
      processOneFile root output_directory output_name max_output_file_size tf st1 =
        Except.error e) :
    ∀ fs : List TargetFile, tf ∈ fs → ∀ st : SplitState,
      ∃ e, processFiles root output_directory output_name max_output_file_size fs st =
        Except.error e := by
  intro fs
  induction fs with
  | nil => intro hmem; cases hmem
  | cons hd rest ih =>
    intro hmem st
    cases hmem with
    | head =>
      obtain ⟨e, he⟩ := herr st
      exact ⟨e, by simp [processFiles, he]⟩
    | tail _ hmem2 =>
      cases hpo : processOneFile root output_directory output_name
          max_output_file_size hd st with
      | error e => exact ⟨e, by simp [processFiles, hpo]⟩
      | ok st1 =>
        obtain ⟨e, he⟩ := ih hmem2 st1
        exact ⟨e, by simp [processFiles, hpo, he]⟩

/-- Claim C9: a target file whose path is not valid UTF-8 makes
`processOneFile` return the InvalidData error whatever the open attempt
would have yielded (the error is raised before the open, so the file is
not merely skipped), a run whose file list starts with such a file
returns exactly that error, and any run whose file list contains such a
file anywhere returns an error for the whole run. -/
theorem c9_invalid_utf8_path_fatal (root : Option (List String))
    (output_directory : List String) (output_name : String)
    (max_output_file_size : Nat) (tf : TargetFile) (st : SplitState)
    (rest tfs : List TargetFile)
    (h : tf.utf8Valid = false) (hmem : tf ∈ tfs) :
    processOneFile root output_directory output_name max_output_file_size tf st =
      Except.error (IoError.invalidData
        ("Target File path contains invalid UTF-8 characters")) ∧
    split_files_into_chunks (tf :: rest) root output_directory
        max_output_file_size output_name =
      Except.error (IoError.invalidData
        ("Target File path contains invalid UTF-8 characters")) ∧
    ∃ e, split_files_into_chunks tfs root output_directory
      max_output_file_size output_name = Except.error e := by
  have hone : ∀ st1 : SplitState,
      processOneFile root output_directory output_name max_output_file_size tf st1 =
        Except.error (IoError.invalidData
          ("Target File path contains invalid UTF-8 characters")) := by
    intro st1
    simp [processOneFile, h]
  refine ⟨hone st,
    by simp [split_files_into_chunks, split_run, processFiles, hone, Except.map], ?_⟩
  obtain ⟨e, he⟩ := processFiles_err_of_mem root output_directory output_name
    max_output_file_size tf (fun st1 => ⟨_, hone st1⟩) tfs hmem
    (initState output_directory output_name)
  exact ⟨e, by simp [split_files_into_chunks, split_run, he, Except.map]⟩

/-- Witness for C9: an unopenable file with a non-UTF-8 path is fatal,
not skipped, also when it is not the first file of the list. -/
theorem c9_invalid_utf8_path_fatal_witness :
    processOneFile none ["out"] ("output") 100 ⟨"", false, none⟩
        (initState ["out"] ("output")) =
      Except.error (IoError.invalidData
        ("Target File path contains invalid UTF-8 characters")) ∧
    split_files_into_chunks [⟨"", false, none⟩] none ["out"] 100 ("output") =
      Except.error (IoError.invalidData
        ("Target File path contains invalid UTF-8 characters")) ∧
    ∃ e, split_files_into_chunks [⟨"a", true, none⟩, ⟨"", false, none⟩] none
      ["out"] 100 ("output") = Except.error e :=
  c9_invalid_utf8_path_fatal none ["out"] ("output") 100 ⟨"", false, none⟩
    (initState ["out"] ("output")) [] [⟨"a", true, none⟩, ⟨"", false, none⟩]
    (by rfl) (by decide)

/-- Claim C3: if the file list contains an openable file (valid UTF-8
path, open succeeds) whose rendered page-1 header size plus footer size
strictly exceeds the capacity, the whole run returns an error and no
result list; a header+footer size exactly equal to the capacity passes
the check. -/
theorem c3_frame_exceeding_capacity_fatal (root : Option (List String))
    (output_directory : List String) (output_name : String)
    (max_output_file_size : Nat) (tfs : List TargetFile)
    (tf : TargetFile) (ls : List (Option String))
    (hmem : tf ∈ tfs) (hvalid : tf.utf8Valid = true)
    (hcontent : tf.content = some ls)
    (hbig : (PageFormat.new tf.path root).get_page_header_size +
        (PageFormat.new tf.path root).get_page_footer_size > max_output_file_size) :
    (∃ e, split_files_into_chunks tfs root output_directory
        max_output_file_size output_name = Except.error e) ∧
    ∀ pf : PageFormat,
      check_max_output_file_size pf
        (pf.get_page_header_size + pf.get_page_footer_size) = Except.ok () := by
  constructor
  · have herr : ∀ st1 : SplitState, ∃ e,
        processOneFile root output_directory output_name max_output_file_size tf st1 =
          Except.error e := by
      intro st1
      exact ⟨IoError.invalidData
        ("Error: The maximum file size (" ++ toString max_output_file_size ++
          ") is too small to contain the page header and footer."),
        by simp [processOneFile, hvalid, hcontent, check_max_output_file_size, hbig]⟩
    obtain ⟨e, he⟩ := processFiles_err_of_mem root output_directory output_name
      max_output_file_size tf herr tfs hmem (initState output_directory output_name)
    exact ⟨e, by simp [split_files_into_chunks, split_run, he, Except.map]⟩
  · intro pf
    simp [check_max_output_file_size]

/-- Witness for C3: capacity 96 is one byte short of the 97-byte frame of
file "a", so the run fails; capacity exactly 97 passes the check. -/
theorem c3_frame_exceeding_capacity_fatal_witness :
    (∃ e, split_files_into_chunks [⟨"a", true, some []⟩] none ["out"] 96 ("output") =
      Except.error e) ∧
    ∀ pf : PageFormat,
      check_max_output_file_size pf
        (pf.get_page_header_size + pf.get_page_footer_size) = Except.ok () :=
  c3_frame_exceeding_capacity_fatal none ["out"] ("output") 96
    [⟨"a", true, some []⟩] ⟨"a", true, some []⟩ [] (by decide) (by rfl) (by rfl)
    (by decide)

end Repcon

namespace Repcon

/-- Processing a line list that contains a failed read at some position
is the same as processing only the lines before the failure: the `break`
in the source abandons everything from the failed read on. -/
theorem processLines_append_none (output_directory : List String)
    (output_name : String) (max_output_file_size : Nat)
    (bad : List (Option String)) :
    ∀ (good : List (Option String)) (pf : PageFormat) (st : SplitState),
      processLines output_directory output_name max_output_file_size
          (good ++ none :: bad) pf st =
        processLines output_directory output_name max_output_file_size good pf st := by
  intro good
  induction good with
  | nil => intro pf st; rfl
  | cons a rest ih =>
    intro pf st
    cases a with
    | none => rfl
    | some line =>
      show processLines output_directory output_name max_output_file_size
          (some line :: (rest ++ none :: bad)) pf st = _
      simp only [processLines]
      split
      · split
        · rfl
        · exact ih _ _
      · exact ih _ _

/-- Claim C5: if reading a line of an opened file fails after some lines
were read, the remaining lines are abandoned (`processLines` behaves as
if the file ended at the failed read), yet `processOneFile` still writes
the current page's footer after the abandoned body and returns `ok`, so
the run continues with the next file. -/
theorem c5_line_read_error_recoverable (root : Option (List String))
    (output_directory : List String) (output_name : String)
    (max_output_file_size : Nat) (good bad : List (Option String))
    (pf : PageFormat) (st : SplitState) (tf : TargetFile) (st0 : SplitState)
    (pf' : PageFormat) (st' : SplitState)
    (hvalid : tf.utf8Valid = true)
    (hcontent : tf.content = some (good ++ none :: bad))
    (hcheck : check_max_output_file_size (PageFormat.new tf.path root)
      max_output_file_size = Except.ok ())
    (hrun : processLines output_directory output_name max_output_file_size good
        (PageFormat.new tf.path root)
        (addSize
          (writeCur
            (if st0.current_size + (PageFormat.new tf.path root).header_size +
                (PageFormat.new tf.path root).footer_size > max_output_file_size then
              next_output_file output_directory output_name st0
            else st0)
            (PageFormat.new tf.path root).header)
          (PageFormat.new tf.path root).header_size) = Except.ok (pf', st')) :
    processLines output_directory output_name max_output_file_size
        (good ++ none :: bad) pf st =
      processLines output_directory output_name max_output_file_size good pf st ∧
    processOneFile root output_directory output_name max_output_file_size tf st0 =
      Except.ok (writeCur st' pf'.footer) := by
  refine ⟨processLines_append_none output_directory output_name
    max_output_file_size bad good pf st, ?_⟩
  simp only [processOneFile, hvalid, hcontent, hcheck,
    processLines_append_none output_directory output_name max_output_file_size bad good,
    hrun]
  rfl

end Repcon

namespace Repcon

/-- Witness for C5: a file whose very first line read fails still gets
its header and footer written and the run returns ok. -/
theorem c5_line_read_error_recoverable_witness :
    processLines ["out"] ("output") 1000 ([] ++ none :: [])
        (PageFormat.new ("a") none) (initState ["out"] ("output")) =
      processLines ["out"] ("output") 1000 []
        (PageFormat.new ("a") none) (initState ["out"] ("output")) ∧
    processOneFile none ["out"] ("output") 1000 ⟨"a", true, some [none]⟩
        (initState ["out"] ("output")) =
      Except.ok
        (writeCur
          (addSize
            (writeCur
              (if (initState ["out"] ("output")).current_size +
                  (PageFormat.new ("a") none).header_size +
                  (PageFormat.new ("a") none).footer_size > 1000 then
                next_output_file ["out"] ("output") (initState ["out"] ("output"))
              else initState ["out"] ("output"))
              (PageFormat.new ("a") none).header)
            (PageFormat.new ("a") none).header_size)
          (PageFormat.new ("a") none).footer) :=
  c5_line_read_error_recoverable none ["out"] ("output") 1000 [] []
    (PageFormat.new ("a") none) (initState ["out"] ("output"))
    ⟨"a", true, some [none]⟩ (initState ["out"] ("output"))
    (PageFormat.new ("a") none)
    (addSize
      (writeCur
        (if (initState ["out"] ("output")).current_size +
            (PageFormat.new ("a") none).header_size +
            (PageFormat.new ("a") none).footer_size > 1000 then
          next_output_file ["out"] ("output") (initState ["out"] ("output"))
        else initState ["out"] ("output"))
        (PageFormat.new ("a") none).header)
      (PageFormat.new ("a") none).header_size)
    (by rfl) (by rfl) (by rfl) (by rfl)

end Repcon

namespace Repcon

/-- The naming invariant of the run state: the container paths generated
so far are exactly output files 1 .. counter, in order, named by
`outFileName` inside the output directory, and at least one exists. -/
def containerPathsAre (output_directory : List String) (output_name : String)
    (st : SplitState) : Prop :=
  st.containers.map Container.path =
    (List.range st.counter).map
      (fun i => output_directory ++ [outFileName output_name (i + 1)]) ∧
  1 ≤ st.counter

/-- Appending bytes to the open container does not change any container
path. -/
theorem appendLast_map_path (cs : List Container) (s : String) :
    (appendLast cs s).map Container.path = cs.map Container.path := by
  induction cs with
  | nil => rfl
  | cons c rest ih =>
    cases rest with
    | nil => rfl
    | cons d ds =>
      simp only [appendLast, List.map_cons] at ih ⊢
      rw [ih]

/-- Writing bytes preserves the naming invariant. -/
theorem containerPathsAre_writeCur (output_directory : List String)
    (output_name : String) (st : SplitState) (s : String)
    (h : containerPathsAre output_directory output_name st) :
    containerPathsAre output_directory output_name (writeCur st s) := by
  obtain ⟨h1, h2⟩ := h
  exact ⟨by simpa [writeCur, appendLast_map_path] using h1, h2⟩

/-- Growing the size counter preserves the naming invariant. -/
theorem containerPathsAre_addSize (output_directory : List String)
    (output_name : String) (st : SplitState) (n : Nat)
    (h : containerPathsAre output_directory output_name st) :
    containerPathsAre output_directory output_name (addSize st n) := h

/-- Opening the next output file preserves the naming invariant. -/
theorem containerPathsAre_next (output_directory : List String)
    (output_name : String) (st : SplitState)
    (h : containerPathsAre output_directory output_name st) :
    containerPathsAre output_directory output_name
      (next_output_file output_directory output_name st) := by
  obtain ⟨h1, h2⟩ := h
  constructor
  · simp [next_output_file, create_new_output_file, List.range_succ, h1]
  · exact Nat.le_succ_of_le h2

/-- The line loop preserves the naming invariant. -/
theorem containerPathsAre_processLines (output_directory : List String)
    (output_name : String) (max_output_file_size : Nat) :
    ∀ (lines : List (Option String)) (pf pf' : PageFormat) (st st' : SplitState),
      processLines output_directory output_name max_output_file_size lines pf st =
        Except.ok (pf', st') →
      containerPathsAre output_directory output_name st →
      containerPathsAre output_directory output_name st' := by
  intro lines
  induction lines with
  | nil =>
    intro pf pf' st st' heq h
    simp only [processLines, Except.ok.injEq, Prod.mk.injEq] at heq
    obtain ⟨-, rfl⟩ := heq
    exact h
  | cons a rest ih =>
    intro pf pf' st st' heq h
    cases a with
    | none =>
      simp only [processLines, Except.ok.injEq, Prod.mk.injEq] at heq
      obtain ⟨-, rfl⟩ := heq
      exact h
    | some line =>
      simp only [processLines] at heq
      split at heq
      · split at heq
        · cases heq
        · exact ih _ _ _ _ heq
            (containerPathsAre_addSize _ _ _ _
              (containerPathsAre_writeCur _ _ _ _
                (containerPathsAre_addSize _ _ _ _
                  (containerPathsAre_writeCur _ _ _ _
                    (containerPathsAre_next _ _ _
                      (containerPathsAre_writeCur _ _ _ _ h))))))
      · exact ih _ _ _ _ heq
          (containerPathsAre_addSize _ _ _ _
            (containerPathsAre_writeCur _ _ _ _ h))


/-- Processing one target file preserves the naming invariant. -/
theorem containerPathsAre_processOneFile (root : Option (List String))
    (output_directory : List String) (output_name : String)
    (max_output_file_size : Nat) (tf : TargetFile) (st st' : SplitState)
    (heq : processOneFile root output_directory output_name max_output_file_size tf st =
      Except.ok st')
    (h : containerPathsAre output_directory output_name st) :
    containerPathsAre output_directory output_name st' := by
  simp only [processOneFile] at heq
  split at heq
  · cases heq
  · split at heq
    · cases heq
      exact h
    · split at heq
      · cases heq
      · split at heq
        · cases heq
        · cases heq
          rename_i pf2 st3 hpl
          refine containerPathsAre_writeCur _ _ _ _
            (containerPathsAre_processLines _ _ _ _ _ _ _ _ hpl
              (containerPathsAre_addSize _ _ _ _
                (containerPathsAre_writeCur _ _ _ _ ?_)))
          split
          · exact containerPathsAre_next _ _ _ h
          · exact h

/-- The file loop preserves the naming invariant. -/
theorem containerPathsAre_processFiles (root : Option (List String))
    (output_directory : List String) (output_name : String)
    (max_output_file_size : Nat) :
    ∀ (fs : List TargetFile) (st st' : SplitState),
      processFiles root output_directory output_name max_output_file_size fs st =
        Except.ok st' →
      containerPathsAre output_directory output_name st →
      containerPathsAre output_directory output_name st' := by
  intro fs
  induction fs with
  | nil =>
    intro st st' heq h
    simp only [processFiles, Except.ok.injEq] at heq
    exact heq ▸ h
  | cons tf rest ih =>
    intro st st' heq h
    simp only [processFiles] at heq
    split at heq
    · cases heq
    · rename_i st1 hone
      exact ih _ _ heq
        (containerPathsAre_processOneFile _ _ _ _ _ _ _ hone h)

/-- The initial state satisfies the naming invariant. -/
theorem containerPathsAre_init (output_directory : List String) (output_name : String) :
    containerPathsAre output_directory output_name
      (initState output_directory output_name) := by
  constructor
  · rfl
  · exact Nat.le_refl 1

/-- Claim C4: whenever `split_files_into_chunks` returns ok, the returned
path list is non-empty, and its i-th element (0-based index i, 1-based
sequence number i+1) is the output directory joined with the file name
`{output_name}_{i+1}.txt`; so the sequence numbers start at 1 and are
contiguous and never reused. -/
theorem c4_generated_container_names (target_files : List TargetFile)
    (root : Option (List String)) (output_directory : List String)
    (max_output_file_size : Nat) (output_name : String)
    (paths : List (List String))
    (h : split_files_into_chunks target_files root output_directory
      max_output_file_size output_name = Except.ok paths) :
    paths ≠ [] ∧
    ∀ i, ∀ hi : i < paths.length,
      paths[i] = output_directory ++ [output_name ++ "_" ++ toString (i + 1) ++ ".txt"] := by
  rw [split_files_into_chunks] at h
  cases hrun : split_run target_files root output_directory
      max_output_file_size output_name with
  | error e =>
    rw [hrun] at h
    cases h
  | ok st =>
    rw [hrun] at h
    simp only [Except.map, Except.ok.injEq] at h
    obtain ⟨hpaths, hcnt⟩ :=
      containerPathsAre_processFiles root output_directory output_name
        max_output_file_size target_files
        (initState output_directory output_name) st hrun
        (containerPathsAre_init output_directory output_name)
    have hp : paths = (List.range st.counter).map
        (fun i => output_directory ++ [outFileName output_name (i + 1)]) := by
      rw [← h, hpaths]
    subst hp
    constructor
    · simp only [ne_eq, List.map_eq_nil_iff, List.range_eq_nil]
      omega
    · intro i hi
      simp only [List.getElem_map, List.getElem_range, outFileName]

end Repcon

namespace Repcon

/-- Witness for C4 at the empty input list: one container, named
output_1.txt, is still produced. -/
theorem c4_generated_container_names_witness :
    ([["out", "output_1.txt"]] : List (List String)) ≠ [] ∧
    ∀ i, ∀ hi : i < ([["out", "output_1.txt"]] : List (List String)).length,
      ([["out", "output_1.txt"]] : List (List String))[i] =
        ["out"] ++ [("output") ++ "_" ++ toString (i + 1) ++ ".txt"] :=
  c4_generated_container_names [] none ["out"] 0 ("output")
    [["out", "output_1.txt"]] (by rfl)

set_option maxRecDepth 8192 in
/-- Claim C1 is violated by the code: two one-component files "a" and
"b" with no lines, capacity 180.  Each file's header is 72 bytes and its
footer 25 bytes, so both frames pass every look-ahead check (0+72+25 and
72+72+25 are at most 180, because the 25 footer bytes of file "a" are
never added to `current_output_file_size`), yet the single generated
container really holds 72+25+72+25 = 194 > 180 bytes.  The run returns
ok and claims the container valid. -/
theorem c1_capacity_invariant_violated :
    (split_run [⟨"a", true, some []⟩, ⟨"b", true, some []⟩] none ["out"] 180
        ("output")).toOption.map
      (fun st => st.containers.map (fun c => byteLen c.content)) = some [194] ∧
    ¬(194 ≤ 180) := by
  exact ⟨by decide, by decide⟩

set_option maxRecDepth 8192 in
/-- Claim C2 is violated by the code: after the final footer write for a
file, `current_output_file_size` is not increased by the footer size.
For a single empty file "a" with ample capacity, the final counter is 72
(the header size alone) while the container truly holds 97 bytes — the
72-byte header plus the 25-byte footer that was written but never
counted. -/
theorem c2_footer_bytes_not_counted :
    (split_run [⟨"a", true, some []⟩] none ["out"] 1000 ("output")).toOption.map
      (fun st => (st.current_size, st.containers.map fun c => byteLen c.content)) =
      some (72, [97]) ∧
    byteLen (PageFormat.new ("a") none).footer = 25 ∧
    (72 : Nat) + 25 = 97 ∧ (72 : Nat) ≠ 97 := by
  exact ⟨by decide, by decide, by decide, by decide⟩

end Repcon
